import Mathlib

/-
Verification of the satcom link-budget tool (src/satcom_link_margin.py).

The computational core of the script consists of:
  * `classify_band`   — the frequency-band classifier (source lines 24-42);
  * `calculate_link_metrics` — the link-budget engine (source lines 47-77);
  * the margin-tier if/elif chain rendered at the end of the script
    (source lines 329-336), modelled here as `classify_margin`.

Python floats are modelled as real numbers; `np.log10` is `Real.logb 10`
and `np.pi` is `Real.pi`.  The source functions contain no validation and
no exceptional control flow of their own, so they are embedded as total
functions on ℝ.
-/

namespace SatcomLink

noncomputable section

/-- Frequency band classifier, embedded from `classify_band` in the source
(lines 24-42): a chain of strict upper-bound tests against fixed breakpoints,
returning the band name. -/
def classify_band (freq_hz : ℝ) : String :=
  if freq_hz < 3e8 then "HF/VHF"
  else if freq_hz < 1e9 then "UHF"
  else if freq_hz < 2e9 then "L-band"
  else if freq_hz < 4e9 then "S-band"
  else if freq_hz < 8e9 then "C-band"
  else if freq_hz < 12e9 then "X-band"
  else if freq_hz < 18e9 then "Ku-band"
  else if freq_hz < 26e9 then "K-band"
  else "Ka-band"

/-- Qualitative margin tier shown by the script (lines 329-336): the four
outcome messages are abstracted to the four tier names. -/
inductive MarginTier where
  | Strong
  | Sufficient
  | Marginal
  | NonViable
deriving DecidableEq, Repr

/-- The margin-tier if/elif chain from the end of the script (lines 329-336):
`margin > 10` Strong, `margin > 3` Sufficient, `margin > 0` Marginal,
otherwise NonViable. -/
def classify_margin (margin : ℝ) : MarginTier :=
  if margin > 10 then MarginTier.Strong
  else if margin > 3 then MarginTier.Sufficient
  else if margin > 0 then MarginTier.Marginal
  else MarginTier.NonViable

/-- The tuple returned by `calculate_link_metrics` (source lines 68-77), with
one named field per tuple component, in the source's order. -/
structure LinkMetrics where
  link_margin_db : ℝ
  ebn0_db : ℝ
  fspl_db : ℝ
  total_loss_db : ℝ
  noise_floor_dbw : ℝ
  c_rx_dbw : ℝ
  data_rate_bps : ℝ
  cn0_dbhz : ℝ

/-- The link-budget engine, embedded line by line from
`calculate_link_metrics` (source lines 47-77).  The source performs no
input validation and raises nothing itself, so the embedding is a total
function; `np.log10` is `Real.logb 10`. -/
def calculate_link_metrics
    (tx_power_dbw tx_gain_dbi rx_gain_dbi freq_hz
     distance_km noise_figure_db bandwidth_hz
     spectral_efficiency required_ebn0
     rain_fade_db misc_losses_db : ℝ) : LinkMetrics :=
  let c : ℝ := 3e8
  let wavelength_m := c / freq_hz
  let fspl_db := 20 * Real.logb 10 ((4 * Real.pi * distance_km * 1000) / wavelength_m)
  let total_loss_db := fspl_db + rain_fade_db + misc_losses_db
  let eirp_dbw := tx_power_dbw + tx_gain_dbi
  let c_rx_dbw := eirp_dbw + rx_gain_dbi - total_loss_db
  let noise_floor_dbw := -228.6 + 10 * Real.logb 10 bandwidth_hz + noise_figure_db
  let cn0_dbhz := c_rx_dbw - noise_floor_dbw + 10 * Real.logb 10 bandwidth_hz
  let data_rate_bps := bandwidth_hz * spectral_efficiency
  let ebn0_db := cn0_dbhz - 10 * Real.logb 10 data_rate_bps
  let link_margin_db := ebn0_db - required_ebn0
  { link_margin_db := link_margin_db
    ebn0_db := ebn0_db
    fspl_db := fspl_db
    total_loss_db := total_loss_db
    noise_floor_dbw := noise_floor_dbw
    c_rx_dbw := c_rx_dbw
    data_rate_bps := data_rate_bps
    cn0_dbhz := cn0_dbhz }

/-- The free-space path-loss expression of source line 55, as a function of
frequency and distance (the other inputs do not enter it). -/
def fspl_formula (freq_hz distance_km : ℝ) : ℝ :=
  20 * Real.logb 10 ((4 * Real.pi * distance_km * 1000) / (3e8 / freq_hz))

end

/-- Base-10 log of an integer power of ten is the exponent. -/
lemma logb_ten_pow (k : ℕ) : Real.logb 10 ((10 : ℝ) ^ k) = k := by
  rw [Real.logb_pow, Real.logb_self_eq_one (by norm_num), mul_one]

/-- Unfolding: the `fspl_db` field is the path-loss expression. -/
lemma calc_fspl_eq (tx txg rxg f d nf bw se req rain misc : ℝ) :
    (calculate_link_metrics tx txg rxg f d nf bw se req rain misc).fspl_db
      = fspl_formula f d := rfl

/-- Unfolding: the `noise_floor_dbw` field in closed form. -/
lemma calc_noise_floor_eq (tx txg rxg f d nf bw se req rain misc : ℝ) :
    (calculate_link_metrics tx txg rxg f d nf bw se req rain misc).noise_floor_dbw
      = -228.6 + 10 * Real.logb 10 bw + nf := rfl

/-- Unfolding: the `c_rx_dbw` field in closed form. -/
lemma calc_c_rx_eq (tx txg rxg f d nf bw se req rain misc : ℝ) :
    (calculate_link_metrics tx txg rxg f d nf bw se req rain misc).c_rx_dbw
      = tx + txg + rxg - (fspl_formula f d + rain + misc) := rfl

/-- Closed form of the `cn0_dbhz` field: the two `10·log10(bandwidth)` terms
of source lines 61-62 cancel. -/
lemma calc_cn0_closed (tx txg rxg f d nf bw se req rain misc : ℝ) :
    (calculate_link_metrics tx txg rxg f d nf bw se req rain misc).cn0_dbhz
      = tx + txg + rxg - (fspl_formula f d + rain + misc) + 228.6 - nf := by
  have h : (calculate_link_metrics tx txg rxg f d nf bw se req rain misc).cn0_dbhz
      = tx + txg + rxg - (fspl_formula f d + rain + misc)
        - (-228.6 + 10 * Real.logb 10 bw + nf) + 10 * Real.logb 10 bw := rfl
  rw [h]; ring

/-- Closed form of the `ebn0_db` field. -/
lemma calc_ebn0_closed (tx txg rxg f d nf bw se req rain misc : ℝ) :
    (calculate_link_metrics tx txg rxg f d nf bw se req rain misc).ebn0_db
      = tx + txg + rxg - (fspl_formula f d + rain + misc) + 228.6 - nf
        - 10 * Real.logb 10 (bw * se) := by
  have h : (calculate_link_metrics tx txg rxg f d nf bw se req rain misc).ebn0_db
      = (tx + txg + rxg - (fspl_formula f d + rain + misc)
          - (-228.6 + 10 * Real.logb 10 bw + nf) + 10 * Real.logb 10 bw)
        - 10 * Real.logb 10 (bw * se) := rfl
  rw [h]; ring

/-- Closed form of the `link_margin_db` field. -/
lemma calc_margin_closed (tx txg rxg f d nf bw se req rain misc : ℝ) :
    (calculate_link_metrics tx txg rxg f d nf bw se req rain misc).link_margin_db
      = tx + txg + rxg - (fspl_formula f d + rain + misc) + 228.6 - nf
        - 10 * Real.logb 10 (bw * se) - req := by
  have h : (calculate_link_metrics tx txg rxg f d nf bw se req rain misc).link_margin_db
      = (tx + txg + rxg - (fspl_formula f d + rain + misc)
          - (-228.6 + 10 * Real.logb 10 bw + nf) + 10 * Real.logb 10 bw
          - 10 * Real.logb 10 (bw * se)) - req := rfl
  rw [h]; ring

/-- Claim C3: `classify_band` partitions the non-negative frequency line into
nine contiguous left-closed half-open intervals with breakpoints
3e8, 1e9, 2e9, 4e9, 8e9, 12e9, 18e9, 26e9, each boundary belonging to the
interval that starts at it, and frequencies just below a boundary belonging
to the preceding band. -/
theorem classify_band_partition (f : ℝ) (hf : 0 ≤ f) :
    (f < 3e8 → classify_band f = "HF/VHF") ∧
    (3e8 ≤ f → f < 1e9 → classify_band f = "UHF") ∧
    (1e9 ≤ f → f < 2e9 → classify_band f = "L-band") ∧
    (2e9 ≤ f → f < 4e9 → classify_band f = "S-band") ∧
    (4e9 ≤ f → f < 8e9 → classify_band f = "C-band") ∧
    (8e9 ≤ f → f < 12e9 → classify_band f = "X-band") ∧
    (12e9 ≤ f → f < 18e9 → classify_band f = "Ku-band") ∧
    (18e9 ≤ f → f < 26e9 → classify_band f = "K-band") ∧
    (26e9 ≤ f → classify_band f = "Ka-band") ∧
    classify_band 3e8 = "UHF" ∧ classify_band 1e9 = "L-band" ∧
    classify_band 2e9 = "S-band" ∧ classify_band 4e9 = "C-band" ∧
    classify_band 8e9 = "X-band" ∧ classify_band 12e9 = "Ku-band" ∧
    classify_band 18e9 = "K-band" ∧ classify_band 26e9 = "Ka-band" ∧
    classify_band (3e8 - 1) = "HF/VHF" ∧ classify_band (1e9 - 1) = "UHF" ∧
    classify_band (2e9 - 1) = "L-band" ∧ classify_band (4e9 - 1) = "S-band" ∧
    classify_band (8e9 - 1) = "C-band" ∧ classify_band (12e9 - 1) = "X-band" ∧
    classify_band (18e9 - 1) = "Ku-band" ∧ classify_band (26e9 - 1) = "K-band" := by
  refine ⟨?_, ?_, ?_, ?_, ?_, ?_, ?_, ?_, ?_, ?_, ?_, ?_, ?_, ?_, ?_, ?_, ?_,
    ?_, ?_, ?_, ?_, ?_, ?_, ?_, ?_⟩ <;>
    first
      | (intro h1 h2; unfold classify_band; split_ifs <;> first | rfl | linarith)
      | (intro h1; unfold classify_band; split_ifs <;> first | rfl | linarith)
      | (unfold classify_band; norm_num)

/-- Witness for C3 at the concrete boundary input 3e8 - 1. -/
theorem classify_band_partition_witness : classify_band 0 = "HF/VHF" :=
  (classify_band_partition 0 le_rfl).1 (by norm_num)

/-- Claim C8: for every frequency strictly below 3e8 Hz — zero and negative
values included — `classify_band` falls through to the first branch and
returns "HF/VHF". -/
theorem classify_band_below_first_breakpoint (f : ℝ) (hf : f < 3e8) :
    classify_band f = "HF/VHF" := by
  unfold classify_band
  rw [if_pos hf]

/-- Witness for C8 at the concrete negative input -1e9. -/
theorem classify_band_below_first_breakpoint_witness :
    classify_band (-1e9) = "HF/VHF" :=
  classify_band_below_first_breakpoint (-1e9) (by norm_num)

/-- Claim C4: the margin tier chain is the total step function
margin > 10 Strong; 3 < margin ≤ 10 Sufficient; 0 < margin ≤ 3 Marginal;
margin ≤ 0 NonViable, and the nine sample margins 11, 10.01, 10, 5, 3.01,
3, 1, 0, -1 map to Strong, Strong, Sufficient, Sufficient, Sufficient,
Marginal, Marginal, NonViable, NonViable respectively. -/
theorem classify_margin_step (m : ℝ) :
    (10 < m → classify_margin m = MarginTier.Strong) ∧
    (3 < m → m ≤ 10 → classify_margin m = MarginTier.Sufficient) ∧
    (0 < m → m ≤ 3 → classify_margin m = MarginTier.Marginal) ∧
    (m ≤ 0 → classify_margin m = MarginTier.NonViable) ∧
    classify_margin 11 = MarginTier.Strong ∧
    classify_margin 10.01 = MarginTier.Strong ∧
    classify_margin 10 = MarginTier.Sufficient ∧
    classify_margin 5 = MarginTier.Sufficient ∧
    classify_margin 3.01 = MarginTier.Sufficient ∧
    classify_margin 3 = MarginTier.Marginal ∧
    classify_margin 1 = MarginTier.Marginal ∧
    classify_margin 0 = MarginTier.NonViable ∧
    classify_margin (-1) = MarginTier.NonViable := by
  refine ⟨?_, ?_, ?_, ?_, ?_, ?_, ?_, ?_, ?_, ?_, ?_, ?_, ?_⟩ <;>
    first
      | (intro h1 h2; unfold classify_margin; split_ifs <;> first | rfl | linarith)
      | (intro h1; unfold classify_margin; split_ifs <;> first | rfl | linarith)
      | (unfold classify_margin; norm_num)

/-- Witness for C4 at the concrete margin 20. -/
theorem classify_margin_step_witness : classify_margin 20 = MarginTier.Strong :=
  (classify_margin_step 20).1 (by norm_num)

/-- Claim C9: `calculate_link_metrics` is deterministic — two invocations on
componentwise-identical inputs return identical result tuples; the function
depends on nothing but its explicit arguments. -/
theorem calculate_link_metrics_deterministic
    (a1 a2 a3 a4 a5 a6 a7 a8 a9 a10 a11 b1 b2 b3 b4 b5 b6 b7 b8 b9 b10 b11 : ℝ)
    (h1 : a1 = b1) (h2 : a2 = b2) (h3 : a3 = b3) (h4 : a4 = b4)
    (h5 : a5 = b5) (h6 : a6 = b6) (h7 : a7 = b7) (h8 : a8 = b8)
    (h9 : a9 = b9) (h10 : a10 = b10) (h11 : a11 = b11) :
    calculate_link_metrics a1 a2 a3 a4 a5 a6 a7 a8 a9 a10 a11
      = calculate_link_metrics b1 b2 b3 b4 b5 b6 b7 b8 b9 b10 b11 := by
  subst h1; subst h2; subst h3; subst h4; subst h5; subst h6
  subst h7; subst h8; subst h9; subst h10; subst h11
  rfl

/-- Witness for C9: two runs on the same concrete inputs agree. -/
theorem calculate_link_metrics_deterministic_witness :
    calculate_link_metrics 10 10 10 8.4e9 100 3 1e6 1 2 3 2
      = calculate_link_metrics 10 10 10 8.4e9 100 3 1e6 1 2 3 2 :=
  calculate_link_metrics_deterministic 10 10 10 8.4e9 100 3 1e6 1 2 3 2
    10 10 10 8.4e9 100 3 1e6 1 2 3 2
    rfl rfl rfl rfl rfl rfl rfl rfl rfl rfl rfl

/-- Claim C1: for positive frequency, distance, bandwidth and spectral
efficiency, `calculate_link_metrics` computes exactly the spec's formula
chain — wavelength, Friis path loss, total loss, received power, noise
floor, C/N0, data rate, Eb/N0 and link margin — and returns all of these
values. -/
theorem calculate_link_metrics_formula_chain
    (tx txg rxg f d nf bw se req rain misc : ℝ)
    (hf : 0 < f) (hd : 0 < d) (hbw : 0 < bw) (hse : 0 < se)
    (r : LinkMetrics)
    (hr : r = calculate_link_metrics tx txg rxg f d nf bw se req rain misc) :
    r.fspl_db = 20 * Real.logb 10 ((4 * Real.pi * d * 1000) / (3e8 / f)) ∧
    r.total_loss_db = r.fspl_db + rain + misc ∧
    r.c_rx_dbw = tx + txg + rxg - r.total_loss_db ∧
    r.noise_floor_dbw = -228.6 + 10 * Real.logb 10 bw + nf ∧
    r.cn0_dbhz = r.c_rx_dbw - r.noise_floor_dbw + 10 * Real.logb 10 bw ∧
    r.data_rate_bps = bw * se ∧
    r.ebn0_db = r.cn0_dbhz - 10 * Real.logb 10 r.data_rate_bps ∧
    r.link_margin_db = r.ebn0_db - req := by
  subst hr
  exact ⟨rfl, rfl, rfl, rfl, rfl, rfl, rfl, rfl⟩

/-- Witness for C1 at a concrete valid input. -/
theorem calculate_link_metrics_formula_chain_witness :
    (calculate_link_metrics 10 10 10 8.4e9 100 3 1e6 1 2 3 2).data_rate_bps
      = 1e6 * 1 :=
  (calculate_link_metrics_formula_chain 10 10 10 8.4e9 100 3 1e6 1 2 3 2
    (by norm_num) (by norm_num) (by norm_num) (by norm_num) _ rfl).2.2.2.2.2.1

/-- Claim C2 (amended): `calculate_link_metrics` performs no input
validation and raises no failure.  Even at distance_km = 0 — an input the
claim says must be rejected before any computation — the function runs to
completion for every choice of the remaining parameters and returns a full
result record whose path-loss field is 20·log10(0) (in the source's numpy
arithmetic, -inf, which is propagated to the caller). -/
theorem calculate_link_metrics_no_validation
    (tx txg rxg f nf bw se req rain misc : ℝ) :
    (calculate_link_metrics tx txg rxg f 0 nf bw se req rain misc).fspl_db
      = 20 * Real.logb 10 0 ∧
    (calculate_link_metrics tx txg rxg f 0 nf bw se req rain misc).data_rate_bps
      = bw * se := by
  constructor
  · have h : (calculate_link_metrics tx txg rxg f 0 nf bw se req rain misc).fspl_db
        = 20 * Real.logb 10 ((4 * Real.pi * 0 * 1000) / (3e8 / f)) := rfl
    rw [h]
    norm_num
  · rfl

/-- Counterexample to C2 as stated: at the concrete input with
distance_km = 0 (other parameters valid), no failure occurs — the engine
produces a complete result record: its data-rate field is computed to 1e6
and its path-loss field is 20·log10(0), numpy's -inf, handed to the
caller. -/
theorem calculate_link_metrics_no_validation_counterexample :
    (calculate_link_metrics 10 10 10 1e9 0 3 1e6 1 2 3 2).fspl_db
      = 20 * Real.logb 10 0 ∧
    (calculate_link_metrics 10 10 10 1e9 0 3 1e6 1 2 3 2).data_rate_bps = 1e6 := by
  constructor
  · have h : (calculate_link_metrics 10 10 10 1e9 0 3 1e6 1 2 3 2).fspl_db
        = 20 * Real.logb 10 ((4 * Real.pi * 0 * 1000) / ((3e8 : ℝ) / 1e9)) := rfl
    rw [h]
    norm_num
  · have h : (calculate_link_metrics 10 10 10 1e9 0 3 1e6 1 2 3 2).data_rate_bps
        = (1e6 : ℝ) * 1 := rfl
    rw [h]
    norm_num

/-- Claim C5 (amended): for fixed other parameters, `noise_floor_dbw` is
strictly increasing in bandwidth, but `ebn0_db` is NOT independent of
bandwidth: it is strictly decreasing in bandwidth (the bandwidth terms
cancel between the noise-floor and C/N0 steps, but the data-rate term
10·log10(bandwidth·spectral_efficiency) of step 9 does not cancel). -/
theorem ebn0_bandwidth_dependence
    (tx txg rxg f d nf se req rain misc b1 b2 : ℝ)
    (hse : 0 < se) (hb1 : 0 < b1) (h12 : b1 < b2) :
    (calculate_link_metrics tx txg rxg f d nf b1 se req rain misc).noise_floor_dbw
      < (calculate_link_metrics tx txg rxg f d nf b2 se req rain misc).noise_floor_dbw ∧
    (calculate_link_metrics tx txg rxg f d nf b2 se req rain misc).ebn0_db
      < (calculate_link_metrics tx txg rxg f d nf b1 se req rain misc).ebn0_db := by
  have hlb : Real.logb 10 b1 < Real.logb 10 b2 :=
    Real.logb_lt_logb (by norm_num) hb1 h12
  have hmul : b1 * se < b2 * se := by nlinarith
  have hlb2 : Real.logb 10 (b1 * se) < Real.logb 10 (b2 * se) :=
    Real.logb_lt_logb (by norm_num) (mul_pos hb1 hse) hmul
  rw [calc_noise_floor_eq, calc_noise_floor_eq, calc_ebn0_closed, calc_ebn0_closed]
  constructor <;> linarith

/-- Witness for C5's amended theorem at concrete bandwidths 1e6 < 1e7. -/
theorem ebn0_bandwidth_dependence_witness :
    (calculate_link_metrics 10 10 10 8.4e9 100 3 1e7 1 2 3 2).ebn0_db
      < (calculate_link_metrics 10 10 10 8.4e9 100 3 1e6 1 2 3 2).ebn0_db :=
  (ebn0_bandwidth_dependence 10 10 10 8.4e9 100 3 1 2 3 2 1e6 1e7
    (by norm_num) (by norm_num) (by norm_num)).2

/-- Counterexample to C5 as stated: at concrete inputs differing only in
bandwidth (1e6 Hz vs 1e7 Hz, spectral efficiency 1), the two `ebn0_db`
outputs differ by exactly 10 dB, so Eb/N0 is not independent of
bandwidth. -/
theorem ebn0_bandwidth_dependence_counterexample :
    (calculate_link_metrics 0 0 0 1e9 100 0 1e6 1 0 0 0).ebn0_db
      = (calculate_link_metrics 0 0 0 1e9 100 0 1e7 1 0 0 0).ebn0_db + 10 ∧
    (calculate_link_metrics 0 0 0 1e9 100 0 1e6 1 0 0 0).ebn0_db
      ≠ (calculate_link_metrics 0 0 0 1e9 100 0 1e7 1 0 0 0).ebn0_db := by
  have h6 : Real.logb 10 ((1e6 : ℝ) * 1) = 6 := by
    rw [show ((1e6 : ℝ) * 1) = (10 : ℝ) ^ (6 : ℕ) by norm_num, logb_ten_pow]
    norm_num
  have h7 : Real.logb 10 ((1e7 : ℝ) * 1) = 7 := by
    rw [show ((1e7 : ℝ) * 1) = (10 : ℝ) ^ (7 : ℕ) by norm_num, logb_ten_pow]
    norm_num
  have e1 := calc_ebn0_closed 0 0 0 1e9 100 0 1e6 1 0 0 0
  have e2 := calc_ebn0_closed 0 0 0 1e9 100 0 1e7 1 0 0 0
  rw [h6] at e1
  rw [h7] at e2
  constructor
  · rw [e1, e2]; ring
  · rw [e1, e2]; intro hcontra; linarith

/-- Scenario-A path-loss argument: at 8.4 GHz and 100 km the log argument
4·π·100·1000 / (3e8 / 8.4e9) equals π·11200000. -/
lemma scenario_a_arg_eq :
    (4 * Real.pi * 100 * 1000) / ((3e8 : ℝ) / 8.4e9) = Real.pi * 11200000 := by
  rw [show ((3e8 : ℝ) / 8.4e9) = 1 / 28 by norm_num]
  rw [div_div_eq_mul_div, div_one]
  ring

/-- Scenario-A free-space path loss lies strictly between 150 dB and
152 dB. -/
lemma scenario_a_fspl_bounds :
    150 < fspl_formula 8.4e9 100 ∧ fspl_formula 8.4e9 100 < 152 := by
  have hpi_l := Real.pi_gt_d6
  have hpi_u := Real.pi_lt_d6
  have hxpos : (0 : ℝ) < Real.pi * 11200000 := by positivity
  unfold fspl_formula
  rw [scenario_a_arg_eq]
  constructor
  · have hxl : (35185830 : ℝ) < Real.pi * 11200000 := by linarith
    have hsq : ((10 : ℝ) ^ (15 : ℕ)) < (Real.pi * 11200000) ^ 2 := by nlinarith
    have h2 : Real.logb 10 ((10 : ℝ) ^ (15 : ℕ))
        < Real.logb 10 ((Real.pi * 11200000) ^ 2) :=
      Real.logb_lt_logb (by norm_num) (by positivity) hsq
    rw [logb_ten_pow, Real.logb_pow] at h2
    push_cast at h2
    linarith
  · have hxu : Real.pi * 11200000 < 35185842 := by linarith
    have hpow : (Real.pi * 11200000) ^ 5 < ((10 : ℝ) ^ (38 : ℕ)) := by
      calc (Real.pi * 11200000) ^ 5
          < (35185842 : ℝ) ^ 5 :=
            pow_lt_pow_left₀ hxu (le_of_lt hxpos) (by norm_num)
        _ < ((10 : ℝ) ^ (38 : ℕ)) := by norm_num
    have h5 : Real.logb 10 ((Real.pi * 11200000) ^ 5)
        < Real.logb 10 ((10 : ℝ) ^ (38 : ℕ)) :=
      Real.logb_lt_logb (by norm_num) (by positivity) hpow
    rw [logb_ten_pow, Real.logb_pow] at h5
    push_cast at h5
    linarith

/-- Claim C6 (amended): for the scenario-A inputs (10 dBW, 10 dBi, 10 dBi,
8.4 GHz, 100 km, 3 dB noise figure, 1 MHz, spectral efficiency 1,
required Eb/N0 2 dB, 3 dB rain, 2 dB misc), the free-space path loss is
approximately 150.9 dB (strictly between 150 and 152, not 165.9), and the
link margin is strongly positive — above 10 dB, Strong tier, not
NonViable. -/
theorem scenario_a_corrected :
    150 < (calculate_link_metrics 10 10 10 8.4e9 100 3 1e6 1 2 3 2).fspl_db ∧
    (calculate_link_metrics 10 10 10 8.4e9 100 3 1e6 1 2 3 2).fspl_db < 152 ∧
    10 < (calculate_link_metrics 10 10 10 8.4e9 100 3 1e6 1 2 3 2).link_margin_db ∧
    classify_margin
      (calculate_link_metrics 10 10 10 8.4e9 100 3 1e6 1 2 3 2).link_margin_db
      = MarginTier.Strong := by
  obtain ⟨hl, hu⟩ := scenario_a_fspl_bounds
  have hfspl := calc_fspl_eq 10 10 10 8.4e9 100 3 1e6 1 2 3 2
  have h6 : Real.logb 10 ((1e6 : ℝ) * 1) = 6 := by
    rw [show ((1e6 : ℝ) * 1) = (10 : ℝ) ^ (6 : ℕ) by norm_num, logb_ten_pow]
    norm_num
  have hm := calc_margin_closed 10 10 10 8.4e9 100 3 1e6 1 2 3 2
  rw [h6] at hm
  have hmargin : 10
      < (calculate_link_metrics 10 10 10 8.4e9 100 3 1e6 1 2 3 2).link_margin_db := by
    rw [hm]; linarith
  refine ⟨by rw [hfspl]; exact hl, by rw [hfspl]; exact hu, hmargin, ?_⟩
  unfold classify_margin
  rw [if_pos hmargin]

/-- Counterexample to C6 as stated: at the exact scenario-A input the
computed free-space path loss is below 160 dB (hence at least 5.9 dB away
from the claimed 165.9 dB), and the link margin is above 10 dB — strongly
positive, not NonViable. -/
theorem scenario_a_counterexample :
    (calculate_link_metrics 10 10 10 8.4e9 100 3 1e6 1 2 3 2).fspl_db < 160 ∧
    10 < (calculate_link_metrics 10 10 10 8.4e9 100 3 1e6 1 2 3 2).link_margin_db := by
  obtain ⟨hl, hu⟩ := scenario_a_fspl_bounds
  have hfspl := calc_fspl_eq 10 10 10 8.4e9 100 3 1e6 1 2 3 2
  have h6 : Real.logb 10 ((1e6 : ℝ) * 1) = 6 := by
    rw [show ((1e6 : ℝ) * 1) = (10 : ℝ) ^ (6 : ℕ) by norm_num, logb_ten_pow]
    norm_num
  have hm := calc_margin_closed 10 10 10 8.4e9 100 3 1e6 1 2 3 2
  rw [h6] at hm
  constructor
  · rw [hfspl]; linarith
  · rw [hm]; linarith

/-- Claim C7: for fixed other parameters (positive frequency, bandwidth and
spectral efficiency), both `c_rx_dbw` (received power) and `link_margin_db`
are strictly decreasing in distance: a strictly larger positive distance
gives strictly smaller received power and strictly smaller margin. -/
theorem received_power_margin_distance_monotone
    (tx txg rxg f nf bw se req rain misc d1 d2 : ℝ)
    (hf : 0 < f) (hbw : 0 < bw) (hse : 0 < se) (hd1 : 0 < d1) (h12 : d1 < d2) :
    (calculate_link_metrics tx txg rxg f d2 nf bw se req rain misc).c_rx_dbw
      < (calculate_link_metrics tx txg rxg f d1 nf bw se req rain misc).c_rx_dbw ∧
    (calculate_link_metrics tx txg rxg f d2 nf bw se req rain misc).link_margin_db
      < (calculate_link_metrics tx txg rxg f d1 nf bw se req rain misc).link_margin_db := by
  have hw : 0 < (3e8 : ℝ) / f := by positivity
  have harg1 : 0 < (4 * Real.pi * d1 * 1000) / ((3e8 : ℝ) / f) := by
    apply div_pos _ hw
    have := Real.pi_pos
    nlinarith
  have hargs : (4 * Real.pi * d1 * 1000) / ((3e8 : ℝ) / f)
      < (4 * Real.pi * d2 * 1000) / ((3e8 : ℝ) / f) := by
    apply (div_lt_div_iff_of_pos_right hw).mpr
    have := Real.pi_pos
    nlinarith
  have hlog : Real.logb 10 ((4 * Real.pi * d1 * 1000) / ((3e8 : ℝ) / f))
      < Real.logb 10 ((4 * Real.pi * d2 * 1000) / ((3e8 : ℝ) / f)) :=
    Real.logb_lt_logb (by norm_num) harg1 hargs
  have hfspl : fspl_formula f d1 < fspl_formula f d2 := by
    unfold fspl_formula; linarith
  rw [calc_c_rx_eq, calc_c_rx_eq, calc_margin_closed, calc_margin_closed]
  constructor <;> linarith

/-- Witness for C7 at concrete distances 100 km < 200 km. -/
theorem received_power_margin_distance_monotone_witness :
    (calculate_link_metrics 10 10 10 8.4e9 200 3 1e6 1 2 3 2).c_rx_dbw
      < (calculate_link_metrics 10 10 10 8.4e9 100 3 1e6 1 2 3 2).c_rx_dbw :=
  (received_power_margin_distance_monotone 10 10 10 8.4e9 3 1e6 1 2 3 2 100 200
    (by norm_num) (by norm_num) (by norm_num) (by norm_num) (by norm_num)).1

/-- Claim C10: for every valid input, the two `10·log10(bandwidth)` terms of
source lines 61-62 cancel exactly, so `cn0_dbhz` equals
`c_rx_dbw + 228.6 - noise_figure_db` and is independent of bandwidth for
fixed other parameters. -/
theorem cn0_bandwidth_cancellation
    (tx txg rxg f d nf bw se req rain misc b2 : ℝ)
    (hf : 0 < f) (hd : 0 < d) (hbw : 0 < bw) :
    (calculate_link_metrics tx txg rxg f d nf bw se req rain misc).cn0_dbhz
      = (calculate_link_metrics tx txg rxg f d nf bw se req rain misc).c_rx_dbw
        + 228.6 - nf ∧
    (calculate_link_metrics tx txg rxg f d nf bw se req rain misc).cn0_dbhz
      = (calculate_link_metrics tx txg rxg f d nf b2 se req rain misc).cn0_dbhz := by
  rw [calc_cn0_closed, calc_cn0_closed, calc_c_rx_eq]
  exact ⟨by ring, by ring⟩

/-- Witness for C10 at a concrete valid input. -/
theorem cn0_bandwidth_cancellation_witness :
    (calculate_link_metrics 10 10 10 8.4e9 100 3 1e6 1 2 3 2).cn0_dbhz
      = (calculate_link_metrics 10 10 10 8.4e9 100 3 1e6 1 2 3 2).c_rx_dbw
        + 228.6 - 3 :=
  (cn0_bandwidth_cancellation 10 10 10 8.4e9 100 3 1e6 1 2 3 2 1e7
    (by norm_num) (by norm_num) (by norm_num)).1

end SatcomLink
